import Mathlib

/-!
Shallow embedding of `src/simulador.py` (interactive mass-transfer simulator).

The numeric computations of the Python source are embedded over `ℝ`, with
Python float exponentiation `**` modelled by `Real.rpow` and `np.log10`
by `Real.logb 10`.  The two presentation-layer operations that belong to the
Python runtime rather than to this repository — `float(...)` parsing of a
string and f-string number formatting (`:.0f`, `:.1f`, `:.2f`, `:.2e`) — are
abstracted as explicit function parameters (`parse`, `PyFormat`); theorems
that depend on a concrete value of those runtime functions take the relevant
Python behaviour (for example that formatting `0.0` yields "0.00") as an
explicit hypothesis, discharged at concrete instances in the witnesses.
-/

open Real

open scoped Classical

/-- Abstraction of the Python f-string number formatters used by the source:
`f0 x` models f"{x:.0f}", `f1 x` models f"{x:.1f}", `f2 x` models f"{x:.2f}",
and `e2 x` models f"{x:.2e}". -/
structure PyFormat where
  f0 : ℝ → String
  f1 : ℝ → String
  f2 : ℝ → String
  e2 : ℝ → String

/-- `calcular_sherwood(geometria, Re, Sc, usar_DAB=False)` from
`src/simulador.py` lines 11-39: returns 0.0 when the DAB checkbox is off,
otherwise dispatches on the geometry string over five power-law
correlations, defaulting to 0.0 on an unrecognized geometry. -/
noncomputable def calcular_sherwood (geometria : String) (Re Sc : ℝ)
    (usar_DAB : Bool := false) : ℝ :=
  if usar_DAB = false then 0.0
  else if geometria = "placa" then 0.037 * Re ^ (0.8 : ℝ) * Sc ^ ((1 : ℝ)/3)
  else if geometria = "tubo" then 0.023 * Re ^ (0.8 : ℝ) * Sc ^ ((1 : ℝ)/3)
  else if geometria = "esfera" then 2.0 + 0.6 * Re ^ (0.5 : ℝ) * Sc ^ ((1 : ℝ)/3)
  else if geometria = "gota" then 2.0 + 0.6 * Re ^ (0.5 : ℝ) * Sc ^ ((1 : ℝ)/3)
  else if geometria = "lecho empacado" then 1.15 * Re ^ (0.6 : ℝ) * Sc ^ ((1 : ℝ)/3)
  else 0.0

/-- Python `str.capitalize()`: first character upper-cased, the rest
lower-cased (used on the geometry name in the combination sentence). -/
def pyCapitalize (s : String) : String :=
  match s.data with
  | [] => ""
  | c :: rest => String.mk (c.toUpper :: rest.map Char.toLower)

/-- The fixed warning emitted when the diffusivity guard fails
(`src/simulador.py` lines 169-172). -/
def advertencia : String :=
  "⚠️ **ADVERTENCIA:** Debe marcar la casilla \x27Usar valor DAB\x27 e ingresar un Coeficiente de Difusión (DAB) válido y mayor a cero para poder calcular el Número de Sherwood (Sh) y el Coeficiente $k_c$."

/-- The characteristic length `L_caracteristica = 1.0` of
`src/simulador.py` line 181. -/
def L_caracteristica : ℝ := 1.0

/-- `kc = Sh * (DAB / L_caracteristica)`, `src/simulador.py` line 182. -/
noncomputable def kc_of (Sh DAB : ℝ) : ℝ :=
  Sh * (DAB / L_caracteristica)

/-- First interpretation bullet (flow regime by Re),
`src/simulador.py` lines 187-192. -/
noncomputable def parteRe (fmt : PyFormat) (Re : ℝ) : String :=
  if Re > 5000 then
    "• **Re alto (" ++ fmt.f0 Re ++ ")** → Flujo **Turbulento** → Mayor $\\boldsymbol\x7bk_c\x7d$ (Transferencia Dominada por **Convección**)."
  else if Re < 500 then
    "• **Re bajo (" ++ fmt.f0 Re ++ ")** → Flujo **Laminar** → Menor $\\boldsymbol\x7bk_c\x7d$."
  else
    "• **Re moderado (" ++ fmt.f0 Re ++ ")** → Flujo de Transición."

/-- Second interpretation bullet (diffusion regime by Sc),
`src/simulador.py` lines 195-200. -/
noncomputable def parteSc (fmt : PyFormat) (Sc : ℝ) : String :=
  if Sc > 1000 then
    "• **Sc alto (" ++ fmt.f0 Sc ++ ")** → Difusión Lenta (**Líquidos**) → Menor $\\boldsymbol\x7bk_c\x7d$ (Resistencia a la difusión alta)."
  else if Sc < 1 then
    "• **Sc bajo (" ++ fmt.f1 Sc ++ ")** → Difusión Rápida (**Gases**) → Mayor $\\boldsymbol\x7bk_c\x7d$."
  else
    "• **Sc moderado (" ++ fmt.f1 Sc ++ ")**"

/-- The combined-regime selector `comb`, `src/simulador.py` lines 203-208. -/
noncomputable def combActual (Sh Re Sc : ℝ) : String :=
  if Sh > 1000 ∧ Re > 5000 then "**Convección Forzada Dominante**"
  else if Sh < 100 ∧ Sc > 1000 then "**Difusión Lenta Dominante**"
  else "**Transferencia combinada convección/difusión**"

/-- Third interpretation bullet (combined regime appended with the
capitalized geometry name), `src/simulador.py` lines 203-210. -/
noncomputable def parteComb (Sh Re Sc : ℝ) (geometria : String) : String :=
  "• **Combinación actual:** " ++ combActual Sh Re Sc ++
    " para la geometría de **" ++ pyCapitalize geometria ++ "**."

/-- The interpretation output of `actualizar_resultados`: either the single
fixed warning string, or the `html.Ul` list of bullet strings. -/
inductive Interpretacion where
  | advertenciaMsg (msg : String)
  | lista (parts : List String)
deriving DecidableEq

/-- The three outputs of the `actualizar_resultados` callback, together with
the numeric locals `Sh` and `kc` they are formatted from. -/
structure Resultado where
  Sh : ℝ
  kc : ℝ
  sh_str : String
  kc_str : String
  interpretacion : Interpretacion

/-- `actualizar_resultados(geometria, Re, Sc, checklist_dab, DAB)` from
`src/simulador.py` lines 163-218: the diffusivity guard
(`not usar_DAB or DAB is None or DAB <= 0`) forces `Sh = kc = 0.0` with the
fixed warning; otherwise `Sh` comes from `calcular_sherwood`,
`kc = Sh * (DAB / L_caracteristica)`, and the interpretation is the
three-bullet list.  The final formatted outputs are
`sh_str = f"{Sh:.2f}"` and `kc_str = f"{kc:.2e}"`. -/
noncomputable def actualizar_resultados (fmt : PyFormat) (geometria : String)
    (Re Sc : ℝ) (checklist_dab : List String) (DAB : Option ℝ) : Resultado :=
  let usar_DAB : Bool := checklist_dab.contains "DAB_ON"
  if usar_DAB = false ∨ DAB = none ∨ ∃ d, DAB = some d ∧ d ≤ 0 then
    { Sh := 0.0, kc := 0.0, sh_str := fmt.f2 0.0, kc_str := fmt.e2 0.0,
      interpretacion := .advertenciaMsg advertencia }
  else
    let d : ℝ := DAB.getD 0
    let Sh : ℝ := calcular_sherwood geometria Re Sc usar_DAB
    let kc : ℝ := kc_of Sh d
    { Sh := Sh, kc := kc, sh_str := fmt.f2 Sh, kc_str := fmt.e2 kc,
      interpretacion :=
        .lista [parteRe fmt Re, parteSc fmt Sc, parteComb Sh Re Sc geometria] }

/-- Dynamic x-axis upper bound (in log10 units), `src/simulador.py`
lines 239 and 246-247: starts at 4.3 and is widened to
`max 4.3 (log10 Sh + 0.5)` when `Sh > 0`. -/
noncomputable def sh_max_dyn (Sh : ℝ) : ℝ :=
  if Sh > 0 then max 4.3 (Real.logb 10 Sh + 0.5) else 4.3

/-- Dynamic y-axis upper bound (in log10 units), `src/simulador.py`
lines 243 and 248-249: starts at -3.0 and is widened to
`max (-3.0) (log10 kc + 0.5)` when `kc > 0`. -/
noncomputable def kc_max_dyn (kc : ℝ) : ℝ :=
  if kc > 0 then max (-3.0) (Real.logb 10 kc + 0.5) else -3.0

/-- The figure produced by `actualizar_grafica`: the single scatter point and
the log10-unit ranges handed to the log-scale axes. -/
structure Grafica where
  punto : ℝ × ℝ
  sh_range : ℝ × ℝ
  kc_range : ℝ × ℝ

/-- `actualizar_grafica(Sh_str, kc_str)` from `src/simulador.py`
lines 226-273.  `parse` abstracts the Python builtin `float(...)`:
`parse s = none` models `float(s)` raising `ValueError`.  The `try/except`
of lines 227-234 means that if either string fails to parse, both
coordinates are replaced by the fallback `(1.0, 1e-10)`.  The axis ranges
are the fixed lower bounds `0.0` and `-12.0` with the dynamic upper
bounds. -/
noncomputable def actualizar_grafica (parse : String → Option ℝ)
    (Sh_str kc_str : String) : Grafica :=
  let p : ℝ × ℝ :=
    match parse Sh_str, parse kc_str with
    | some a, some b => (a, b)
    | _, _ => (1.0, 1e-10)
  { punto := p,
    sh_range := (0.0, sh_max_dyn p.1),
    kc_range := (-12.0, kc_max_dyn p.2) }

/-- A concrete formatter agreeing with Python f-string formatting at the
value `0.0` (`f"\x7b0.0:.2f\x7d" == "0.00"`, `f"\x7b0.0:.2e\x7d" == "0.00e+00"`);
used to instantiate theorems whose `fmt` parameter is abstract. -/
def fmtPy0 : PyFormat :=
  { f0 := fun _ => "0", f1 := fun _ => "0.0",
    f2 := fun _ => "0.00", e2 := fun _ => "0.00e+00" }

/-- A concrete parse function agreeing with the Python builtin `float` on the
two display strings produced by the guard branch
(`float("0.00") == 0.0`, `float("0.00e+00") == 0.0`); every other string is
treated as unparseable. -/
def parsePy0 : String → Option ℝ :=
  fun s => if s = "0.00" ∨ s = "0.00e+00" then some 0 else none

/-- C1: with the DAB flag true, `calcular_sherwood` returns exactly the
table formula for each of the five recognized geometries, and `0.0` for
every other geometry string (silent default, no error). -/
theorem calcular_sherwood_table (Re Sc : ℝ) :
    calcular_sherwood "placa" Re Sc true = 0.037 * Re ^ (0.8 : ℝ) * Sc ^ ((1 : ℝ)/3) ∧
    calcular_sherwood "tubo" Re Sc true = 0.023 * Re ^ (0.8 : ℝ) * Sc ^ ((1 : ℝ)/3) ∧
    calcular_sherwood "esfera" Re Sc true = 2.0 + 0.6 * Re ^ (0.5 : ℝ) * Sc ^ ((1 : ℝ)/3) ∧
    calcular_sherwood "gota" Re Sc true = 2.0 + 0.6 * Re ^ (0.5 : ℝ) * Sc ^ ((1 : ℝ)/3) ∧
    calcular_sherwood "lecho empacado" Re Sc true = 1.15 * Re ^ (0.6 : ℝ) * Sc ^ ((1 : ℝ)/3) ∧
    (∀ g : String, g ≠ "placa" → g ≠ "tubo" → g ≠ "esfera" → g ≠ "gota" →
      g ≠ "lecho empacado" → calcular_sherwood g Re Sc true = 0.0) := by
  refine ⟨?_, ?_, ?_, ?_, ?_, ?_⟩
  · simp [calcular_sherwood]
  · simp [calcular_sherwood]
  · simp [calcular_sherwood]
  · simp [calcular_sherwood]
  · simp [calcular_sherwood]
  · intro g h1 h2 h3 h4 h5
    simp [calcular_sherwood, h1, h2, h3, h4, h5]

/-- Witness for C1 at `Re = 2`, `Sc = 3`, with the unrecognized geometry
string "cubo". -/
theorem calcular_sherwood_table_witness :
    calcular_sherwood "placa" 2 3 true = 0.037 * (2 : ℝ) ^ (0.8 : ℝ) * (3 : ℝ) ^ ((1 : ℝ)/3) ∧
    calcular_sherwood "cubo" 2 3 true = 0.0 :=
  ⟨(calcular_sherwood_table 2 3).1,
    (calcular_sherwood_table 2 3).2.2.2.2.2 "cubo" (by decide) (by decide)
      (by decide) (by decide) (by decide)⟩

/-- C2: with the DAB flag false, `calcular_sherwood` returns `0.0`
unconditionally, for every geometry, Re and Sc. -/
theorem calcular_sherwood_flag_off (g : String) (Re Sc : ℝ) :
    calcular_sherwood g Re Sc false = 0.0 := by
  simp [calcular_sherwood]

/-- C3: whenever the diffusivity guard fails (flag off, or DAB absent, or
DAB ≤ 0), `actualizar_resultados` forces `Sh = 0.0` and `kc = 0.0` and its
interpretation output is the single fixed warning message, regardless of
geometry, Re and Sc. -/
theorem actualizar_resultados_guard (fmt : PyFormat) (geometria : String)
    (Re Sc : ℝ) (checklist_dab : List String) (DAB : Option ℝ)
    (h : checklist_dab.contains "DAB_ON" = false ∨ DAB = none ∨
      ∃ d, DAB = some d ∧ d ≤ 0) :
    (actualizar_resultados fmt geometria Re Sc checklist_dab DAB).Sh = 0.0 ∧
    (actualizar_resultados fmt geometria Re Sc checklist_dab DAB).kc = 0.0 ∧
    (actualizar_resultados fmt geometria Re Sc checklist_dab DAB).interpretacion
      = .advertenciaMsg advertencia := by
  unfold actualizar_resultados
  rw [if_pos h]
  exact ⟨rfl, rfl, rfl⟩

/-- Witness for C3: DAB checkbox unchecked (empty checklist) with a valid
DAB value. -/
theorem actualizar_resultados_guard_witness :
    (actualizar_resultados fmtPy0 "esfera" 1000 500 [] (some 1e-9)).Sh = 0.0 ∧
    (actualizar_resultados fmtPy0 "esfera" 1000 500 [] (some 1e-9)).kc = 0.0 ∧
    (actualizar_resultados fmtPy0 "esfera" 1000 500 [] (some 1e-9)).interpretacion
      = .advertenciaMsg advertencia :=
  actualizar_resultados_guard fmtPy0 "esfera" 1000 500 [] (some 1e-9)
    (Or.inl (by decide))

/-- C4: when the guard passes (flag on and DAB > 0), the coefficient is
`Sh * (DAB / L_caracteristica)` with `L_caracteristica = 1.0`, i.e.
`kc = Sh * DAB`; in particular `Sh = 100` with `DAB = 1e-9` gives
`kc = 1e-7`. -/
theorem actualizar_resultados_kc (fmt : PyFormat) (geometria : String)
    (Re Sc : ℝ) (checklist_dab : List String) (d : ℝ)
    (h1 : checklist_dab.contains "DAB_ON" = true) (h2 : 0 < d) :
    (actualizar_resultados fmt geometria Re Sc checklist_dab (some d)).kc
      = kc_of (actualizar_resultados fmt geometria Re Sc checklist_dab (some d)).Sh d ∧
    (actualizar_resultados fmt geometria Re Sc checklist_dab (some d)).kc
      = (actualizar_resultados fmt geometria Re Sc checklist_dab (some d)).Sh * d ∧
    L_caracteristica = 1.0 ∧
    kc_of 100 1e-9 = 1e-7 := by
  have hng : ¬(checklist_dab.contains "DAB_ON" = false ∨ (some d : Option ℝ) = none ∨
      ∃ e, (some d : Option ℝ) = some e ∧ e ≤ 0) := by
    rintro (hf | hn | ⟨e, he, hle⟩)
    · rw [h1] at hf
      exact Bool.noConfusion hf
    · exact Option.noConfusion hn
    · rw [Option.some_inj] at he
      subst he
      linarith
  refine ⟨?_, ?_, rfl, by norm_num [kc_of, L_caracteristica]⟩
  · unfold actualizar_resultados
    rw [if_neg hng]
    rfl
  · unfold actualizar_resultados
    rw [if_neg hng]
    show kc_of _ d = _ * d
    unfold kc_of L_caracteristica
    norm_num

/-- Witness for C4 at the sphere with `Re = 1000`, `Sc = 500`,
`DAB = 1e-9`. -/
theorem actualizar_resultados_kc_witness :
    (actualizar_resultados fmtPy0 "esfera" 1000 500 ["DAB_ON"] (some 1e-9)).kc
      = (actualizar_resultados fmtPy0 "esfera" 1000 500 ["DAB_ON"] (some 1e-9)).Sh * 1e-9 ∧
    kc_of 100 1e-9 = 1e-7 :=
  ⟨(actualizar_resultados_kc fmtPy0 "esfera" 1000 500 ["DAB_ON"] 1e-9
      (by decide) (by norm_num)).2.1,
    (actualizar_resultados_kc fmtPy0 "esfera" 1000 500 ["DAB_ON"] 1e-9
      (by decide) (by norm_num)).2.2.2⟩

/-- C5: the interpretation list is built from three threshold rules with
strict inequalities, in order.  Rule 1 (Re): `Re > 5000` selects the
turbulent bullet, `Re < 500` the laminar bullet, otherwise the transitional
bullet — so `Re = 5000` falls in the transitional branch and `Re = 5001` in
the turbulent branch.  Rule 2 (Sc): `Sc > 1000` slow diffusion, `Sc < 1`
fast diffusion, otherwise moderate.  Rule 3: `Sh > 1000 ∧ Re > 5000` forced
convection, else `Sh < 100 ∧ Sc > 1000` diffusion-limited, else combined —
and the third bullet always carries the (capitalized) geometry name.  When
the guard passes, `actualizar_resultados` emits exactly these three bullets
in order. -/
theorem interpretacion_reglas (fmt : PyFormat) (Re Sc Sh : ℝ)
    (geometria : String) (checklist_dab : List String) (d : ℝ) :
    (Re > 5000 → parteRe fmt Re =
      "• **Re alto (" ++ fmt.f0 Re ++ ")** → Flujo **Turbulento** → Mayor $\\boldsymbol\x7bk_c\x7d$ (Transferencia Dominada por **Convección**).") ∧
    (Re < 500 → parteRe fmt Re =
      "• **Re bajo (" ++ fmt.f0 Re ++ ")** → Flujo **Laminar** → Menor $\\boldsymbol\x7bk_c\x7d$.") ∧
    (¬(Re > 5000) → ¬(Re < 500) → parteRe fmt Re =
      "• **Re moderado (" ++ fmt.f0 Re ++ ")** → Flujo de Transición.") ∧
    parteRe fmt 5000 =
      "• **Re moderado (" ++ fmt.f0 5000 ++ ")** → Flujo de Transición." ∧
    parteRe fmt 5001 =
      "• **Re alto (" ++ fmt.f0 5001 ++ ")** → Flujo **Turbulento** → Mayor $\\boldsymbol\x7bk_c\x7d$ (Transferencia Dominada por **Convección**)." ∧
    (Sc > 1000 → parteSc fmt Sc =
      "• **Sc alto (" ++ fmt.f0 Sc ++ ")** → Difusión Lenta (**Líquidos**) → Menor $\\boldsymbol\x7bk_c\x7d$ (Resistencia a la difusión alta).") ∧
    (Sc < 1 → parteSc fmt Sc =
      "• **Sc bajo (" ++ fmt.f1 Sc ++ ")** → Difusión Rápida (**Gases**) → Mayor $\\boldsymbol\x7bk_c\x7d$.") ∧
    (¬(Sc > 1000) → ¬(Sc < 1) → parteSc fmt Sc =
      "• **Sc moderado (" ++ fmt.f1 Sc ++ ")**") ∧
    (Sh > 1000 → Re > 5000 →
      combActual Sh Re Sc = "**Convección Forzada Dominante**") ∧
    (¬(Sh > 1000 ∧ Re > 5000) → Sh < 100 → Sc > 1000 →
      combActual Sh Re Sc = "**Difusión Lenta Dominante**") ∧
    (¬(Sh > 1000 ∧ Re > 5000) → ¬(Sh < 100 ∧ Sc > 1000) →
      combActual Sh Re Sc = "**Transferencia combinada convección/difusión**") ∧
    parteComb Sh Re Sc geometria =
      "• **Combinación actual:** " ++ combActual Sh Re Sc ++
        " para la geometría de **" ++ pyCapitalize geometria ++ "**." ∧
    (checklist_dab.contains "DAB_ON" = true → 0 < d →
      (actualizar_resultados fmt geometria Re Sc checklist_dab (some d)).interpretacion
        = .lista [parteRe fmt Re, parteSc fmt Sc,
            parteComb (calcular_sherwood geometria Re Sc true) Re Sc geometria]) := by
  refine ⟨?_, ?_, ?_, ?_, ?_, ?_, ?_, ?_, ?_, ?_, ?_, rfl, ?_⟩
  · intro h
    unfold parteRe
    rw [if_pos h]
  · intro h
    unfold parteRe
    rw [if_neg (by linarith), if_pos h]
  · intro h1 h2
    unfold parteRe
    rw [if_neg h1, if_neg h2]
  · unfold parteRe
    rw [if_neg (by norm_num), if_neg (by norm_num)]
  · unfold parteRe
    rw [if_pos (by norm_num)]
  · intro h
    unfold parteSc
    rw [if_pos h]
  · intro h
    unfold parteSc
    rw [if_neg (by linarith), if_pos h]
  · intro h1 h2
    unfold parteSc
    rw [if_neg h1, if_neg h2]
  · intro h1 h2
    unfold combActual
    rw [if_pos ⟨h1, h2⟩]
  · intro h1 h2 h3
    unfold combActual
    rw [if_neg h1, if_pos ⟨h2, h3⟩]
  · intro h1 h2
    unfold combActual
    rw [if_neg h1, if_neg h2]
  · intro h1 h2
    have hng : ¬(checklist_dab.contains "DAB_ON" = false ∨ (some d : Option ℝ) = none ∨
        ∃ e, (some d : Option ℝ) = some e ∧ e ≤ 0) := by
      rintro (hf | hn | ⟨e, he, hle⟩)
      · rw [h1] at hf
        exact Bool.noConfusion hf
      · exact Option.noConfusion hn
      · rw [Option.some_inj] at he
        subst he
        linarith
    unfold actualizar_resultados
    rw [if_neg hng]
    show Interpretacion.lista [_, _, parteComb (calcular_sherwood geometria Re Sc
      (checklist_dab.contains "DAB_ON")) Re Sc geometria] = _
    rw [h1]

/-- Witness for C5: `Re = 5000` is transitional, `Re = 5001` turbulent, and
a concrete diffusion-limited combination with the sphere geometry. -/
theorem interpretacion_reglas_witness :
    parteRe fmtPy0 5000 =
      "• **Re moderado (" ++ fmtPy0.f0 5000 ++ ")** → Flujo de Transición." ∧
    parteRe fmtPy0 5001 =
      "• **Re alto (" ++ fmtPy0.f0 5001 ++ ")** → Flujo **Turbulento** → Mayor $\\boldsymbol\x7bk_c\x7d$ (Transferencia Dominada por **Convección**)." ∧
    combActual 50 1000 2000 = "**Difusión Lenta Dominante**" ∧
    parteComb 50 1000 2000 "esfera" =
      "• **Combinación actual:** " ++ combActual 50 1000 2000 ++
        " para la geometría de **" ++ pyCapitalize "esfera" ++ "**." :=
  ⟨(interpretacion_reglas fmtPy0 5000 1 1 "esfera" [] 1).2.2.2.1,
    (interpretacion_reglas fmtPy0 5001 1 1 "esfera" [] 1).2.2.2.2.1,
    (interpretacion_reglas fmtPy0 1000 2000 50 "esfera" [] 1).2.2.2.2.2.2.2.2.2.1
      (by norm_num) (by norm_num) (by norm_num),
    (interpretacion_reglas fmtPy0 1000 2000 50 "esfera" [] 1).2.2.2.2.2.2.2.2.2.2.2.1⟩

theorem sh_max_dyn_ge (v : ℝ) : 4.3 ≤ sh_max_dyn v := by
  unfold sh_max_dyn
  split
  · exact le_max_left _ _
  · exact le_refl _

theorem kc_max_dyn_ge (v : ℝ) : -3.0 ≤ kc_max_dyn v := by
  unfold kc_max_dyn
  split
  · exact le_max_left _ _
  · exact le_refl _

theorem sh_max_dyn_mono {a b : ℝ} (h : a ≤ b) : sh_max_dyn a ≤ sh_max_dyn b := by
  unfold sh_max_dyn
  by_cases hb : b > 0
  · by_cases ha : a > 0
    · rw [if_pos ha, if_pos hb]
      exact max_le_max (le_refl _)
        (add_le_add_right (Real.logb_le_logb_of_le (by norm_num) ha h) _)
    · rw [if_neg ha, if_pos hb]
      exact le_max_left _ _
  · rw [if_neg (fun ha => hb (lt_of_lt_of_le ha h)), if_neg hb]

theorem kc_max_dyn_mono {a b : ℝ} (h : a ≤ b) : kc_max_dyn a ≤ kc_max_dyn b := by
  unfold kc_max_dyn
  by_cases hb : b > 0
  · by_cases ha : a > 0
    · rw [if_pos ha, if_pos hb]
      exact max_le_max (le_refl _)
        (add_le_add_right (Real.logb_le_logb_of_le (by norm_num) ha h) _)
    · rw [if_neg ha, if_pos hb]
      exact le_max_left _ _
  · rw [if_neg (fun ha => hb (lt_of_lt_of_le ha h)), if_neg hb]

/-- C7: if either display string fails to parse, the plotted point is exactly
the fixed fallback `(1.0, 1e-10)`; the embedded function is total, modelling
that the `try/except` never lets an error escape. -/
theorem fallback_punto (parse : String → Option ℝ) (s1 s2 : String)
    (h : parse s1 = none ∨ parse s2 = none) :
    (actualizar_grafica parse s1 s2).punto = (1.0, 1e-10) := by
  cases h1 : parse s1 with
  | none => cases h2 : parse s2 <;> simp [actualizar_grafica, h1, h2]
  | some a =>
    cases h2 : parse s2 with
    | none => simp [actualizar_grafica, h1, h2]
    | some b =>
      rw [h1, h2] at h
      rcases h with h | h <;> exact Option.noConfusion h

/-- Witness for C7: a parse function that fails on every string. -/
theorem fallback_punto_witness :
    (actualizar_grafica (fun _ => none) "abc" "xyz").punto = (1.0, 1e-10) :=
  fallback_punto (fun _ => none) "abc" "xyz" (Or.inl rfl)

/-- C8: in every figure the lower bounds are fixed at `10^0` and `10^-12`
(log10 units `0.0` and `-12.0`), the upper bounds are `sh_max_dyn` /
`kc_max_dyn` of the plotted coordinates, each of which equals
`max default (log10 v + 0.5)` when `v > 0`, never drops below its default
(`4.3` resp. `-3.0`, i.e. `10^4.3` and `10^-3`), and is monotone in the
coordinate. -/
theorem ejes_rangos (parse : String → Option ℝ) (s1 s2 : String) (v a b : ℝ) :
    (actualizar_grafica parse s1 s2).sh_range.1 = 0.0 ∧
    (actualizar_grafica parse s1 s2).kc_range.1 = -12.0 ∧
    (actualizar_grafica parse s1 s2).sh_range.2
      = sh_max_dyn (actualizar_grafica parse s1 s2).punto.1 ∧
    (actualizar_grafica parse s1 s2).kc_range.2
      = kc_max_dyn (actualizar_grafica parse s1 s2).punto.2 ∧
    (0 < v → sh_max_dyn v = max 4.3 (Real.logb 10 v + 0.5)) ∧
    (0 < v → kc_max_dyn v = max (-3.0) (Real.logb 10 v + 0.5)) ∧
    4.3 ≤ sh_max_dyn v ∧ -3.0 ≤ kc_max_dyn v ∧
    (a ≤ b → sh_max_dyn a ≤ sh_max_dyn b) ∧
    (a ≤ b → kc_max_dyn a ≤ kc_max_dyn b) := by
  refine ⟨rfl, rfl, rfl, rfl, ?_, ?_, sh_max_dyn_ge v, kc_max_dyn_ge v,
    fun h => sh_max_dyn_mono h, fun h => kc_max_dyn_mono h⟩
  · intro hv
    unfold sh_max_dyn
    rw [if_pos hv]
  · intro hv
    unfold kc_max_dyn
    rw [if_pos hv]

/-- Witness for C8 at `v = 100`, `a = 2`, `b = 3`. -/
theorem ejes_rangos_witness :
    sh_max_dyn 100 = max 4.3 (Real.logb 10 100 + 0.5) ∧
    sh_max_dyn 2 ≤ sh_max_dyn 3 ∧ kc_max_dyn 2 ≤ kc_max_dyn 3 :=
  ⟨(ejes_rangos (fun _ => none) "a" "b" 100 2 3).2.2.2.2.1 (by norm_num),
    (ejes_rangos (fun _ => none) "a" "b" 100 2 3).2.2.2.2.2.2.2.2.1 (by norm_num),
    (ejes_rangos (fun _ => none) "a" "b" 100 2 3).2.2.2.2.2.2.2.2.2 (by norm_num)⟩

/-- C9 (amended): the plotted point lies inside the computed axis ranges
whenever its coordinates are at least the fixed lower bounds (`Sh ≥ 10^0`,
`kc ≥ 10^-12`); the upper bounds always accommodate the point, but a parsed
coordinate below the lower bound (e.g. `0.0`) falls outside the range. -/
theorem punto_en_rango (parse : String → Option ℝ) (s1 s2 : String) :
    (1 ≤ (actualizar_grafica parse s1 s2).punto.1 →
      (10 : ℝ) ^ (actualizar_grafica parse s1 s2).sh_range.1
          ≤ (actualizar_grafica parse s1 s2).punto.1 ∧
        (actualizar_grafica parse s1 s2).punto.1
          ≤ (10 : ℝ) ^ (actualizar_grafica parse s1 s2).sh_range.2) ∧
    (1e-12 ≤ (actualizar_grafica parse s1 s2).punto.2 →
      (10 : ℝ) ^ (actualizar_grafica parse s1 s2).kc_range.1
          ≤ (actualizar_grafica parse s1 s2).punto.2 ∧
        (actualizar_grafica parse s1 s2).punto.2
          ≤ (10 : ℝ) ^ (actualizar_grafica parse s1 s2).kc_range.2) := by
  constructor
  · intro hx
    have hpos : (0 : ℝ) < (actualizar_grafica parse s1 s2).punto.1 := by linarith
    constructor
    · have h0 : (actualizar_grafica parse s1 s2).sh_range.1 = 0.0 := rfl
      rw [h0, show (0.0 : ℝ) = 0 by norm_num, Real.rpow_zero]
      exact hx
    · have h2 : (actualizar_grafica parse s1 s2).sh_range.2
          = sh_max_dyn (actualizar_grafica parse s1 s2).punto.1 := rfl
      rw [h2]
      refine (Real.logb_le_iff_le_rpow (by norm_num) hpos).mp ?_
      unfold sh_max_dyn
      rw [if_pos hpos]
      have := le_max_right (4.3 : ℝ)
        (Real.logb 10 (actualizar_grafica parse s1 s2).punto.1 + 0.5)
      linarith
  · intro hy
    have hpos : (0 : ℝ) < (actualizar_grafica parse s1 s2).punto.2 := by
      have : (0 : ℝ) < 1e-12 := by norm_num
      linarith
    constructor
    · have h0 : (actualizar_grafica parse s1 s2).kc_range.1 = -12.0 := rfl
      rw [h0, show (-12.0 : ℝ) = ((-12 : ℤ) : ℝ) by norm_num, Real.rpow_intCast]
      calc (10 : ℝ) ^ (-12 : ℤ) = 1e-12 := by norm_num
        _ ≤ _ := hy
    · have h2 : (actualizar_grafica parse s1 s2).kc_range.2
          = kc_max_dyn (actualizar_grafica parse s1 s2).punto.2 := rfl
      rw [h2]
      refine (Real.logb_le_iff_le_rpow (by norm_num) hpos).mp ?_
      unfold kc_max_dyn
      rw [if_pos hpos]
      have := le_max_right (-3.0 : ℝ)
        (Real.logb 10 (actualizar_grafica parse s1 s2).punto.2 + 0.5)
      linarith

/-- Witness for the amended C9 at the fallback point `(1.0, 1e-10)`. -/
theorem punto_en_rango_witness :
    ((10 : ℝ) ^ (actualizar_grafica (fun _ => none) "abc" "def").sh_range.1
        ≤ (actualizar_grafica (fun _ => none) "abc" "def").punto.1 ∧
      (actualizar_grafica (fun _ => none) "abc" "def").punto.1
        ≤ (10 : ℝ) ^ (actualizar_grafica (fun _ => none) "abc" "def").sh_range.2) ∧
    ((10 : ℝ) ^ (actualizar_grafica (fun _ => none) "abc" "def").kc_range.1
        ≤ (actualizar_grafica (fun _ => none) "abc" "def").punto.2 ∧
      (actualizar_grafica (fun _ => none) "abc" "def").punto.2
        ≤ (10 : ℝ) ^ (actualizar_grafica (fun _ => none) "abc" "def").kc_range.2) :=
  ⟨(punto_en_rango (fun _ => none) "abc" "def").1 (by norm_num [actualizar_grafica]),
    (punto_en_rango (fun _ => none) "abc" "def").2 (by norm_num [actualizar_grafica])⟩

/-- Counterexample to C9 as stated: for the display strings "0.00" and
"0.00e+00" (exactly what the guard branch emits, parsed by Python float to
`0.0`), the plotted x-coordinate `0.0` lies strictly below the fixed lower
bound `10^0 = 1` of the x-axis, so the point is not inside the computed
ranges. -/
theorem punto_en_rango_counterexample :
    ¬((10 : ℝ) ^ (actualizar_grafica parsePy0 "0.00" "0.00e+00").sh_range.1
        ≤ (actualizar_grafica parsePy0 "0.00" "0.00e+00").punto.1) := by
  have hp : (actualizar_grafica parsePy0 "0.00" "0.00e+00").punto.1 = 0 := by
    simp [actualizar_grafica, parsePy0]
  have h0 : (actualizar_grafica parsePy0 "0.00" "0.00e+00").sh_range.1 = 0.0 := rfl
  rw [hp, h0, show (0.0 : ℝ) = 0 by norm_num, Real.rpow_zero]
  norm_num

/-- C10: when the diffusivity guard fails, the formatted outputs are the
strings "0.00" and "0.00e+00" (given that the formatter behaves as Python
does at `0.0`); both parse back to `0.0` (given that `parse` behaves as the
Python builtin `float` on those strings), so the parse-failure fallback
`(1.0, 1e-10)` is not used: the plotted point is `(0.0, 0.0)` and both
dynamic upper bounds stay at their defaults `4.3` and `-3.0`, the
`value > 0` tests skipping the expansion. -/
theorem guardia_a_grafica (fmt : PyFormat) (parse : String → Option ℝ)
    (geometria : String) (Re Sc : ℝ) (checklist_dab : List String)
    (DAB : Option ℝ)
    (hf2 : fmt.f2 0.0 = "0.00") (he2 : fmt.e2 0.0 = "0.00e+00")
    (hp1 : parse "0.00" = some 0) (hp2 : parse "0.00e+00" = some 0)
    (h : checklist_dab.contains "DAB_ON" = false ∨ DAB = none ∨
      ∃ d, DAB = some d ∧ d ≤ 0) :
    (actualizar_resultados fmt geometria Re Sc checklist_dab DAB).sh_str = "0.00" ∧
    (actualizar_resultados fmt geometria Re Sc checklist_dab DAB).kc_str = "0.00e+00" ∧
    (actualizar_grafica parse
        (actualizar_resultados fmt geometria Re Sc checklist_dab DAB).sh_str
        (actualizar_resultados fmt geometria Re Sc checklist_dab DAB).kc_str).punto
      = (0, 0) ∧
    (actualizar_grafica parse
        (actualizar_resultados fmt geometria Re Sc checklist_dab DAB).sh_str
        (actualizar_resultados fmt geometria Re Sc checklist_dab DAB).kc_str).punto
      ≠ (1.0, 1e-10) ∧
    (actualizar_grafica parse
        (actualizar_resultados fmt geometria Re Sc checklist_dab DAB).sh_str
        (actualizar_resultados fmt geometria Re Sc checklist_dab DAB).kc_str).sh_range.2
      = 4.3 ∧
    (actualizar_grafica parse
        (actualizar_resultados fmt geometria Re Sc checklist_dab DAB).sh_str
        (actualizar_resultados fmt geometria Re Sc checklist_dab DAB).kc_str).kc_range.2
      = -3.0 := by
  have hsh : (actualizar_resultados fmt geometria Re Sc checklist_dab DAB).sh_str
      = "0.00" := by
    unfold actualizar_resultados
    rw [if_pos h]
    exact hf2
  have hkc : (actualizar_resultados fmt geometria Re Sc checklist_dab DAB).kc_str
      = "0.00e+00" := by
    unfold actualizar_resultados
    rw [if_pos h]
    exact he2
  have hg : actualizar_grafica parse
      (actualizar_resultados fmt geometria Re Sc checklist_dab DAB).sh_str
      (actualizar_resultados fmt geometria Re Sc checklist_dab DAB).kc_str
      = actualizar_grafica parse "0.00" "0.00e+00" := by rw [hsh, hkc]
  have hpunto : (actualizar_grafica parse "0.00" "0.00e+00").punto = (0, 0) := by
    simp [actualizar_grafica, hp1, hp2]
  have hmax : sh_max_dyn (0 : ℝ) = 4.3 := by
    unfold sh_max_dyn
    rw [if_neg (lt_irrefl 0)]
  have kmax : kc_max_dyn (0 : ℝ) = -3.0 := by
    unfold kc_max_dyn
    rw [if_neg (lt_irrefl 0)]
  refine ⟨hsh, hkc, by rw [hg]; exact hpunto, ?_, ?_, ?_⟩
  · rw [hg, hpunto]
    intro hcontra
    have : (0 : ℝ) = 1.0 := congrArg Prod.fst hcontra
    norm_num at this
  · rw [hg]
    have h2 : (actualizar_grafica parse "0.00" "0.00e+00").sh_range.2
        = sh_max_dyn (actualizar_grafica parse "0.00" "0.00e+00").punto.1 := rfl
    rw [h2, show (actualizar_grafica parse "0.00" "0.00e+00").punto.1 = 0 by
      rw [show (actualizar_grafica parse "0.00" "0.00e+00").punto.1
        = ((actualizar_grafica parse "0.00" "0.00e+00").punto).1 from rfl, hpunto]]
    exact hmax
  · rw [hg]
    have h2 : (actualizar_grafica parse "0.00" "0.00e+00").kc_range.2
        = kc_max_dyn (actualizar_grafica parse "0.00" "0.00e+00").punto.2 := rfl
    rw [h2, show (actualizar_grafica parse "0.00" "0.00e+00").punto.2 = 0 by
      rw [show (actualizar_grafica parse "0.00" "0.00e+00").punto.2
        = ((actualizar_grafica parse "0.00" "0.00e+00").punto).2 from rfl, hpunto]]
    exact kmax

/-- Witness for C10: concrete formatter and parse function agreeing with
Python at the relevant values, guard failing because the checklist is
empty. -/
theorem guardia_a_grafica_witness :
    (actualizar_resultados fmtPy0 "esfera" 1000 500 [] (some 1e-9)).sh_str = "0.00" ∧
    (actualizar_grafica parsePy0
        (actualizar_resultados fmtPy0 "esfera" 1000 500 [] (some 1e-9)).sh_str
        (actualizar_resultados fmtPy0 "esfera" 1000 500 [] (some 1e-9)).kc_str).punto
      = (0, 0) ∧
    (actualizar_grafica parsePy0
        (actualizar_resultados fmtPy0 "esfera" 1000 500 [] (some 1e-9)).sh_str
        (actualizar_resultados fmtPy0 "esfera" 1000 500 [] (some 1e-9)).kc_str).sh_range.2
      = 4.3 :=
  ⟨(guardia_a_grafica fmtPy0 parsePy0 "esfera" 1000 500 [] (some 1e-9)
      rfl rfl (by simp [parsePy0]) (by simp [parsePy0]) (Or.inl (by decide))).1,
    (guardia_a_grafica fmtPy0 parsePy0 "esfera" 1000 500 [] (some 1e-9)
      rfl rfl (by simp [parsePy0]) (by simp [parsePy0]) (Or.inl (by decide))).2.2.1,
    (guardia_a_grafica fmtPy0 parsePy0 "esfera" 1000 500 [] (some 1e-9)
      rfl rfl (by simp [parsePy0]) (by simp [parsePy0]) (Or.inl (by decide))).2.2.2.2.1⟩

theorem calcular_sherwood_esfera_eq :
    calcular_sherwood "esfera" 1000 500 true
      = 2.0 + 0.6 * (1000 : ℝ) ^ (0.5 : ℝ) * (500 : ℝ) ^ ((1 : ℝ)/3) := by
  simp [calcular_sherwood]

theorem raiz1000_bounds :
    31.6227 < (1000 : ℝ) ^ (0.5 : ℝ) ∧ (1000 : ℝ) ^ (0.5 : ℝ) < 31.6228 := by
  have h : (1000 : ℝ) ^ (0.5 : ℝ) = Real.sqrt 1000 := by
    rw [show (0.5 : ℝ) = 1/2 by norm_num, Real.sqrt_eq_rpow]
  rw [h]
  constructor
  · exact (Real.lt_sqrt (by norm_num)).mpr (by norm_num)
  · exact (Real.sqrt_lt' (by norm_num)).mpr (by norm_num)

theorem cbrt500_bounds :
    7.937 < (500 : ℝ) ^ ((1 : ℝ)/3) ∧ (500 : ℝ) ^ ((1 : ℝ)/3) < 7.93701 := by
  have hc0 : (0 : ℝ) ≤ (500 : ℝ) ^ ((1 : ℝ)/3) :=
    Real.rpow_nonneg (by norm_num) _
  have hc3 : ((500 : ℝ) ^ ((1 : ℝ)/3)) ^ (3 : ℕ) = 500 := by
    rw [← Real.rpow_natCast ((500 : ℝ) ^ ((1 : ℝ)/3)) 3,
      ← Real.rpow_mul (by norm_num : (0 : ℝ) ≤ 500)]
    norm_num
  constructor
  · by_contra hlt
    push_neg at hlt
    have h := pow_le_pow_left₀ hc0 hlt 3
    rw [hc3] at h
    norm_num at h
  · by_contra hlt
    push_neg at hlt
    have h := pow_le_pow_left₀ (by norm_num : (0 : ℝ) ≤ 7.93701) hlt 3
    rw [hc3] at h
    norm_num at h

theorem esfera_producto_bounds :
    150.59 < 0.6 * (1000 : ℝ) ^ (0.5 : ℝ) * (500 : ℝ) ^ ((1 : ℝ)/3) ∧
    0.6 * (1000 : ℝ) ^ (0.5 : ℝ) * (500 : ℝ) ^ ((1 : ℝ)/3) < 150.595 := by
  obtain ⟨hs1, hs2⟩ := raiz1000_bounds
  obtain ⟨hc1, hc2⟩ := cbrt500_bounds
  have hcpos : (0 : ℝ) < (500 : ℝ) ^ ((1 : ℝ)/3) := by linarith
  have hhi : (1000 : ℝ) ^ (0.5 : ℝ) * (500 : ℝ) ^ ((1 : ℝ)/3)
      < 31.6228 * 7.93701 := by
    have h1 : (1000 : ℝ) ^ (0.5 : ℝ) * (500 : ℝ) ^ ((1 : ℝ)/3)
        < 31.6228 * (500 : ℝ) ^ ((1 : ℝ)/3) :=
      mul_lt_mul_of_pos_right hs2 hcpos
    have h2 : (31.6228 : ℝ) * (500 : ℝ) ^ ((1 : ℝ)/3) < 31.6228 * 7.93701 :=
      mul_lt_mul_of_pos_left hc2 (by norm_num)
    linarith
  have hlo : (31.6227 : ℝ) * 7.937
      < (1000 : ℝ) ^ (0.5 : ℝ) * (500 : ℝ) ^ ((1 : ℝ)/3) := by
    have h1 : (31.6227 : ℝ) * 7.937 < 31.6227 * (500 : ℝ) ^ ((1 : ℝ)/3) :=
      mul_lt_mul_of_pos_left hc1 (by norm_num)
    have h2 : (31.6227 : ℝ) * (500 : ℝ) ^ ((1 : ℝ)/3)
        < (1000 : ℝ) ^ (0.5 : ℝ) * (500 : ℝ) ^ ((1 : ℝ)/3) :=
      mul_lt_mul_of_pos_right hs1 hcpos
    linarith
  constructor
  · nlinarith [hlo]
  · nlinarith [hhi]

/-- Counterexample to C6 as stated: the sphere correlation at `Re = 1000`,
`Sc = 500` is about `152.59`, more than `10` away from the specified
`163.33`. -/
theorem esfera_163_counterexample :
    10 < |calcular_sherwood "esfera" 1000 500 true - 163.33| := by
  rw [calcular_sherwood_esfera_eq]
  obtain ⟨hlo, hhi⟩ := esfera_producto_bounds
  rw [abs_of_neg (by linarith)]
  linarith

/-- C6 (amended): for the sphere geometry at `Re = 1000`, `Sc = 500` with
the DAB flag true, `calcular_sherwood` returns exactly
`2.0 + 0.6 * 1000^0.5 * 500^(1/3)`, and this value is approximately
`152.59` (within `0.01`). -/
theorem esfera_1000_500 :
    calcular_sherwood "esfera" 1000 500 true
      = 2.0 + 0.6 * (1000 : ℝ) ^ (0.5 : ℝ) * (500 : ℝ) ^ ((1 : ℝ)/3) ∧
    |calcular_sherwood "esfera" 1000 500 true - 152.59| < 0.01 := by
  refine ⟨calcular_sherwood_esfera_eq, ?_⟩
  rw [calcular_sherwood_esfera_eq]
  obtain ⟨hlo, hhi⟩ := esfera_producto_bounds
  rw [abs_lt]
  constructor <;> linarith
